import Mathlib

/-!
Verification of the asynchronous SDO client state machine of
`src/src/sdo_async.c` (openCANopen).  The C file is embedded shallowly:
the mutable `struct sdo_async` becomes a record, every C function becomes a
pure Lean function from the old state to the new state together with the
list of externally visible events it produces (frames sent on the socket,
timer arm/disarm calls, entry into the completion path, user-callback
invocation, release of the user context).  Machine integers are `Nat`s kept
in range by explicit `% 256` where bytes are written.

The frame-field helpers (`sdo_get_cs`, `sdo_set_index`, ...) live in the
repository's `canopen/sdo.h`, which is not part of `src/`; they are modelled
from the specification's wire-format section (§6).  Likewise the fields of
`struct sdo_async` (declared in `canopen/sdo_async.h`) are reconstructed
from their uses in `sdo_async.c` and from the specification's data model.
Memory allocation (the payload vector's growth) is modelled as always
succeeding, so the NOMEM abort paths are never taken in the model.
-/

/-! ## Protocol constants.
Modelled from the spec (§6): command specifiers, abort codes, cob-id bases,
and the fixed offsets used by `sdo_async.c`. -/

def SDO_CCS_DL_SEG_REQ : Nat := 0
def SDO_CCS_DL_INIT_REQ : Nat := 1
def SDO_CCS_UL_INIT_REQ : Nat := 2
def SDO_CCS_UL_SEG_REQ : Nat := 3
def SDO_SCS_UL_SEG_RES : Nat := 0
def SDO_SCS_DL_SEG_RES : Nat := 1
def SDO_SCS_UL_INIT_RES : Nat := 2
def SDO_SCS_DL_INIT_RES : Nat := 3
def SDO_CS_ABORT : Nat := 4

def SDO_ABORT_TOGGLE : Nat := 0x05030000
def SDO_ABORT_TIMEOUT : Nat := 0x05040000
def SDO_ABORT_INVALID_CS : Nat := 0x05040001
def SDO_ABORT_NOMEM : Nat := 0x05040005
def SDO_ABORT_GENERAL : Nat := 0x08000000

/-- Modelled from the spec: client-to-server SDO cob-id base (0x600). -/
def R_RSDO : Nat := 0x600

/-- Modelled from the spec: server-to-client SDO cob-id base (0x580). -/
def R_TSDO : Nat := 0x580

def SDO_EXPEDIATED_DATA_IDX : Nat := 4
def SDO_EXPEDIATED_DATA_SIZE : Nat := 4
def SDO_SEGMENT_IDX : Nat := 1
def SDO_SEGMENT_MAX_SIZE : Nat := 7
def CAN_MAX_DLC : Nat := 8

/-! ## CAN frames. -/

/-- A CAN frame: identifier, data length code, and the 8 data bytes
(stored as a list of naturals; every byte written by the model is < 256). -/
structure can_frame where
  can_id : Nat
  can_dlc : Nat
  data : List Nat
deriving DecidableEq, Repr

def get_byte (cf : can_frame) (i : Nat) : Nat := cf.data.getD i 0

def set_byte (cf : can_frame) (i v : Nat) : can_frame :=
  { cf with data := cf.data.set i v }

/-- Modelled from `memcpy` into the frame data at a byte offset. -/
def memcpy_at (dst : List Nat) (off : Nat) (src : List Nat) : List Nat :=
  dst.take off ++ src ++ dst.drop (off + src.length)

/-- Modelled from the spec: `sdo_clear_frame` zeroes the frame. -/
def sdo_clear_frame : can_frame :=
  { can_id := 0, can_dlc := 0, data := List.replicate 8 0 }

/-- Modelled from the spec (§6): command specifier = bits 7..5 of byte 0. -/
def sdo_get_cs (cf : can_frame) : Nat := (get_byte cf 0 >>> 5) &&& 7

/-- Modelled from the spec (§6): write the command specifier into bits 7..5. -/
def sdo_set_cs (cf : can_frame) (cs : Nat) : can_frame :=
  set_byte cf 0 ((get_byte cf 0 &&& 0x1F) ||| ((cs &&& 7) <<< 5))

/-- Modelled from the spec (§6): toggle bit = bit 4 of byte 0. -/
def sdo_is_toggled (cf : can_frame) : Bool :=
  (get_byte cf 0 >>> 4) &&& 1 == 1

/-- Modelled from the spec (§6): set the toggle bit (bit 4). -/
def sdo_toggle (cf : can_frame) : can_frame :=
  set_byte cf 0 (get_byte cf 0 ||| 0x10)

/-- Modelled from the spec (§6): size-indicated flag = bit 0 (init frames). -/
def sdo_is_size_indicated (cf : can_frame) : Bool :=
  get_byte cf 0 &&& 1 == 1

/-- Modelled from the spec (§6): set the size-indicated flag (bit 0). -/
def sdo_indicate_size (cf : can_frame) : can_frame :=
  set_byte cf 0 (get_byte cf 0 ||| 1)

/-- Modelled from the spec (§6): expedited flag = bit 1 (init frames). -/
def sdo_is_expediated (cf : can_frame) : Bool :=
  (get_byte cf 0 >>> 1) &&& 1 == 1

/-- Modelled from the spec (§6): set the expedited flag (bit 1). -/
def sdo_expediate (cf : can_frame) : can_frame :=
  set_byte cf 0 (get_byte cf 0 ||| 2)

/-- Modelled from the spec (§6, §4.2): expedited "n" field, bits 3..2 of
byte 0, holding 4 − size. -/
def sdo_set_expediated_size (cf : can_frame) (size : Nat) : can_frame :=
  set_byte cf 0 (get_byte cf 0 ||| (((4 - size) &&& 3) <<< 2))

/-- Modelled from the spec (§4.2): expedited payload size = 4 − n. -/
def sdo_get_expediated_size (cf : can_frame) : Nat :=
  4 - ((get_byte cf 0 >>> 2) &&& 3)

/-- Modelled from the spec (§4.2): the segment "n" field holds 7 − size;
it occupies bits 3..1 of the command byte (the three bits between the
toggle bit and the end-of-transfer bit). -/
def sdo_set_segment_size (cf : can_frame) (size : Nat) : can_frame :=
  set_byte cf 0 (get_byte cf 0 ||| (((7 - size) &&& 7) <<< 1))

/-- Modelled from the spec (§4.2): segment payload size = 7 − n. -/
def sdo_get_segment_size (cf : can_frame) : Nat :=
  7 - ((get_byte cf 0 >>> 1) &&& 7)

/-- Modelled from the spec (§4.2): the "c" (end-of-transfer) bit of a
segment frame, bit 0 of the command byte. -/
def sdo_is_end_segment (cf : can_frame) : Bool :=
  get_byte cf 0 &&& 1 == 1

/-- Modelled from the spec (§4.2): set the "c" (end-of-transfer) bit. -/
def sdo_end_segment (cf : can_frame) : can_frame :=
  set_byte cf 0 (get_byte cf 0 ||| 1)

/-- Modelled from the spec (§6): object index, bytes 1..2 little-endian. -/
def sdo_set_index (cf : can_frame) (index : Nat) : can_frame :=
  set_byte (set_byte cf 1 (index % 256)) 2 (index / 256 % 256)

/-- Modelled from the spec (§6): read the object index (little-endian). -/
def sdo_get_index (cf : can_frame) : Nat :=
  get_byte cf 1 + 256 * get_byte cf 2

/-- Modelled from the spec (§6): subindex = byte 3. -/
def sdo_set_subindex (cf : can_frame) (subindex : Nat) : can_frame :=
  set_byte cf 3 (subindex % 256)

/-- Modelled from the spec (§6): read the subindex. -/
def sdo_get_subindex (cf : can_frame) : Nat := get_byte cf 3

/-- Modelled from the spec (§6): 32-bit abort code, bytes 4..7 little-endian. -/
def sdo_set_abort_code (cf : can_frame) (code : Nat) : can_frame :=
  set_byte (set_byte (set_byte (set_byte cf
    4 (code % 256)) 5 (code / 256 % 256)) 6 (code / 65536 % 256))
    7 (code / 16777216 % 256)

/-- Modelled from the spec (§6): read the 32-bit abort code (little-endian). -/
def sdo_get_abort_code (cf : can_frame) : Nat :=
  get_byte cf 4 + 256 * get_byte cf 5 + 65536 * get_byte cf 6
    + 16777216 * get_byte cf 7

/-- Modelled from the spec (§6): 32-bit indicated total size, bytes 4..7
little-endian, on a segmented init frame. -/
def sdo_set_indicated_size (cf : can_frame) (size : Nat) : can_frame :=
  set_byte (set_byte (set_byte (set_byte cf
    4 (size % 256)) 5 (size / 256 % 256)) 6 (size / 65536 % 256))
    7 (size / 16777216 % 256)

/-- Modelled from the spec (§6): read the 32-bit indicated total size. -/
def sdo_get_indicated_size (cf : can_frame) : Nat :=
  get_byte cf 4 + 256 * get_byte cf 5 + 65536 * get_byte cf 6
    + 16777216 * get_byte cf 7

/-- Modelled from the spec (§7, §4.2): build an abort frame, `sdo_abort`:
abort command specifier, the multiplexer, the abort code, full DLC. -/
def sdo_abort (cf : can_frame) (code index subindex : Nat) : can_frame :=
  let a := sdo_set_cs cf SDO_CS_ABORT
  let b := sdo_set_index a index
  let c := sdo_set_subindex b subindex
  let d := sdo_set_abort_code c code
  { d with can_dlc := CAN_MAX_DLC }

/-! ## The transaction instance. -/

/-- Transfer direction (`enum sdo_req_type`). -/
inductive sdo_req_type where
  | download
  | upload
deriving DecidableEq, Repr

/-- Communication phase (`enum sdo_async_comm_state`);
`comm_start` is the zero value written by `memset` in `sdo_async_init`. -/
inductive sdo_async_comm_state where
  | comm_start
  | comm_init_response
  | comm_seg_response
deriving DecidableEq, Repr

/-- Transaction status (`enum sdo_req_status`); the spec's
{Ok, LocalAbort, RemoteAbort}. -/
inductive sdo_req_status where
  | req_ok
  | req_local_abort
  | req_remote_abort
deriving DecidableEq, Repr

/-- The state of `struct sdo_async` (declared in `canopen/sdo_async.h`,
reconstructed from its uses in `sdo_async.c` and the spec's data model).
Pointers are modelled by whether they are non-null: `context` is a `Nat`
with 0 standing for NULL, `free_fn` and `on_done_cb` record whether the
release function and the user completion callback are non-null.  The
payload vector is a byte list whose length is the vector's fill index.
`timer_armed` mirrors the external one-shot timer: `mloop_timer_start`
sets it, `mloop_timer_stop` clears it, and a timeout event can only be
delivered while it is set. -/
structure sdo_async where
  nodeid : Nat
  quirk_needs_full_frame : Bool
  quirk_ignore_multiplexer : Bool
  is_running : Bool
  comm_state : sdo_async_comm_state
  type : sdo_req_type
  index : Nat
  subindex : Nat
  pos : Nat
  is_toggled : Bool
  is_size_indicated : Bool
  status : sdo_req_status
  abort_code : Nat
  buffer : List Nat
  context : Nat
  free_fn : Bool
  on_done_cb : Bool
  timer_armed : Bool
deriving DecidableEq, Repr

/-- Externally visible effects of the machine. -/
inductive sdo_event where
  | timer_stop
  | timer_start
  | sent (cf : can_frame)
  | on_done_entered
  | callback
  | released (context : Nat)
deriving DecidableEq, Repr

/-- Count of completion-path entries in an event list. -/
def countDone (evs : List sdo_event) : Nat :=
  evs.countP fun e => e matches sdo_event.on_done_entered

/-- The frames sent on the socket within an event list. -/
def sentFrames (evs : List sdo_event) : List can_frame :=
  evs.filterMap fun e =>
    match e with
    | sdo_event.sent cf => some cf
    | _ => none

/-- Parameters of `start` (`struct sdo_async_info`).  The C struct passes
the Download payload as pointer+size; the model carries the pointed-to
bytes directly in `data`.  `on_done_cb` records whether the completion
callback is non-null. -/
structure sdo_async_info where
  type : sdo_req_type
  index : Nat
  subindex : Nat
  timeout : Nat
  on_done_cb : Bool
  context : Nat
  free_fn : Bool
  data : List Nat
deriving DecidableEq, Repr

/-! ## Operations of `sdo_async.c`. -/

/-- Embeds `sdo_async__send`: apply the NEEDS_FULL_FRAME quirk, then hand the
frame to the socket (the caller records the `sent` event). -/
def sdo_async__send_frame (self : sdo_async) (cf : can_frame) : can_frame :=
  if self.quirk_needs_full_frame then { cf with can_dlc := CAN_MAX_DLC } else cf

/-- Embeds `sdo_async__init_frame`: a cleared frame addressed to R_RSDO + nodeid. -/
def sdo_async__init_frame (self : sdo_async) : can_frame :=
  { sdo_clear_frame with can_id := R_RSDO + self.nodeid }

/-- Embeds `sdo_async_stop` (lines 53..67): fail if not running; otherwise stop
the timer, release the user context if both the context and the release
function are non-null, and clear the running flag. -/
def sdo_async_stop (self : sdo_async) : sdo_async × List sdo_event × Int :=
  if self.is_running = false then (self, [], -1)
  else
    ({ self with is_running := false, timer_armed := false },
     sdo_event.timer_stop ::
       (if self.context ≠ 0 ∧ self.free_fn = true
        then [sdo_event.released self.context] else []),
     0)

/-- Embeds `sdo_async__on_done` (lines 69..86), generic in the behaviour of the
stored user callback: stop the timer, capture the context and release
function into locals, clear `is_running`, invoke the callback if it is
non-null, then release the captured context if both captured values are
non-null.  The callback parameter `cb` gives the semantics of the stored
callback (it receives the instance and may mutate it, e.g. by re-entering
`sdo_async_start`). -/
def sdo_async__on_done_gen (cb : sdo_async → sdo_async × List sdo_event)
    (self : sdo_async) : sdo_async × List sdo_event :=
  let context := self.context
  let free_fn := self.free_fn
  let s1 : sdo_async := { self with is_running := false, timer_armed := false }
  let r := if s1.on_done_cb then cb s1 else (s1, [])
  (r.1, sdo_event.timer_stop :: sdo_event.on_done_entered :: r.2
     ++ (if context ≠ 0 ∧ free_fn = true
         then [sdo_event.released context] else []))

/-- The stored user callback as an opaque effect: it leaves the machine
state unchanged and is recorded as a `callback` event.  (Re-entrant
callbacks are treated through `sdo_async__on_done_gen`.) -/
def std_cb (s : sdo_async) : sdo_async × List sdo_event := (s, [sdo_event.callback])

/-- Embeds `sdo_async__on_done` with the opaque user callback. -/
def sdo_async__on_done (self : sdo_async) : sdo_async × List sdo_event :=
  sdo_async__on_done_gen std_cb self

/-- Embeds `sdo_async__abort` (lines 95..106): stop the timer, send an abort
frame for the current multiplexer, record a local abort, run the
completion handler.  (The C function returns −1 to its caller chain.) -/
def sdo_async__abort (self : sdo_async) (code : Nat) : sdo_async × List sdo_event :=
  let s0 : sdo_async := { self with timer_armed := false }
  let cf := sdo_abort (sdo_async__init_frame s0) code s0.index s0.subindex
  let s1 : sdo_async :=
    { s0 with status := sdo_req_status.req_local_abort, abort_code := code }
  let r := sdo_async__on_done s1
  (r.1, sdo_event.timer_stop :: sdo_event.sent (sdo_async__send_frame s0 cf) :: r.2)

/-- Embeds `sdo_async__on_timeout` (lines 108..112). -/
def sdo_async__on_timeout (self : sdo_async) : sdo_async × List sdo_event :=
  sdo_async__abort self SDO_ABORT_TIMEOUT

/-- Embeds `sdo_async_init` (lines 114..135): the zeroed instance (allocation is
modelled as succeeding). -/
def sdo_async_init (nodeid : Nat) : sdo_async :=
  { nodeid := nodeid
    quirk_needs_full_frame := false
    quirk_ignore_multiplexer := false
    is_running := false
    comm_state := sdo_async_comm_state.comm_start
    type := sdo_req_type.download
    index := 0
    subindex := 0
    pos := 0
    is_toggled := false
    is_size_indicated := false
    status := sdo_req_status.req_ok
    abort_code := 0
    buffer := []
    context := 0
    free_fn := false
    on_done_cb := false
    timer_armed := false }

/-- Embeds `sdo_async__is_expediated` (lines 143..146). -/
def sdo_async__is_expediated (self : sdo_async) : Bool :=
  self.buffer.length ≤ SDO_EXPEDIATED_DATA_SIZE

/-- Embeds `sdo_async__is_at_end` (lines 226..229). -/
def sdo_async__is_at_end (self : sdo_async) : Bool :=
  self.buffer.length ≤ self.pos

/-- Embeds `sdo_async__send_init_dl` (lines 148..169). -/
def sdo_async__send_init_dl (self : sdo_async) : sdo_async × List sdo_event :=
  let a := sdo_set_cs (sdo_async__init_frame self) SDO_CCS_DL_INIT_REQ
  let b := sdo_set_index a self.index
  let c := sdo_set_subindex b self.subindex
  let d := sdo_indicate_size c
  let cf :=
    if sdo_async__is_expediated self then
      let e := sdo_expediate d
      let f := sdo_set_expediated_size e self.buffer.length
      let g := { f with can_dlc := SDO_EXPEDIATED_DATA_IDX + self.buffer.length }
      { g with data := memcpy_at g.data SDO_EXPEDIATED_DATA_IDX self.buffer }
    else
      let e := sdo_set_indicated_size d self.buffer.length
      { e with can_dlc := CAN_MAX_DLC }
  ({ self with timer_armed := true },
   [sdo_event.timer_start, sdo_event.sent (sdo_async__send_frame self cf)])

/-- Embeds `sdo_async__send_init_ul` (lines 171..182). -/
def sdo_async__send_init_ul (self : sdo_async) : sdo_async × List sdo_event :=
  let a := sdo_set_cs (sdo_async__init_frame self) SDO_CCS_UL_INIT_REQ
  let b := sdo_set_index a self.index
  let c := sdo_set_subindex b self.subindex
  let cf := { c with can_dlc := 4 }
  ({ self with timer_armed := true },
   [sdo_event.timer_start, sdo_event.sent (sdo_async__send_frame self cf)])

/-- Embeds `sdo_async__send_init` (lines 184..193). -/
def sdo_async__send_init (self : sdo_async) : sdo_async × List sdo_event :=
  match self.type with
  | sdo_req_type.download => sdo_async__send_init_dl self
  | sdo_req_type.upload => sdo_async__send_init_ul self

/-- Embeds `sdo_async_start` (lines 195..224): fail if already running; load the
request parameters (the C code writes `comm_state` twice, START then
INIT_RESPONSE; the net effect is INIT_RESPONSE), assign or clear the
payload buffer, set the running flag, and send the init frame. -/
def sdo_async_start (self : sdo_async) (info : sdo_async_info) :
    sdo_async × List sdo_event × Int :=
  if self.is_running then (self, [], -1)
  else
    let s : sdo_async :=
      { self with
        context := info.context
        free_fn := info.free_fn
        pos := 0
        is_toggled := false
        comm_state := sdo_async_comm_state.comm_init_response
        type := info.type
        on_done_cb := info.on_done_cb
        index := info.index
        subindex := info.subindex
        is_size_indicated := false
        buffer := if info.type = sdo_req_type.download then info.data else []
        is_running := true }
    let r := sdo_async__send_init s
    (r.1, r.2, 0)

/-- Embeds `sdo_async__request_dl_segment` (lines 231..254): build a segment
frame carrying `MIN(7, remaining)` bytes from the cursor, advance the
cursor, set the end-of-transfer bit when the cursor has reached the end,
re-arm the timer, send. -/
def sdo_async__request_dl_segment (self : sdo_async) : sdo_async × List sdo_event :=
  let a := sdo_set_cs (sdo_async__init_frame self) SDO_CCS_DL_SEG_REQ
  let b := if self.is_toggled then sdo_toggle a else a
  let size := min SDO_SEGMENT_MAX_SIZE (self.buffer.length - self.pos)
  let c := sdo_set_segment_size b size
  let payload := (self.buffer.drop self.pos).take size
  let d := { c with data := memcpy_at c.data SDO_SEGMENT_IDX payload }
  let e := { d with can_dlc := SDO_SEGMENT_IDX + size }
  let s1 : sdo_async := { self with pos := self.pos + size }
  let cf := if sdo_async__is_at_end s1 then sdo_end_segment e else e
  ({ s1 with timer_armed := true },
   [sdo_event.timer_start, sdo_event.sent (sdo_async__send_frame self cf)])

/-- Embeds `sdo_async__request_ul_segment` (lines 299..309). -/
def sdo_async__request_ul_segment (self : sdo_async) : sdo_async × List sdo_event :=
  let a := sdo_set_cs (sdo_async__init_frame self) SDO_CCS_UL_SEG_REQ
  let b := if self.is_toggled then sdo_toggle a else a
  let cf := { b with can_dlc := 1 }
  ({ self with timer_armed := true },
   [sdo_event.timer_start, sdo_event.sent (sdo_async__send_frame self cf)])

/-- Embeds `sdo_async__feed_init_dl_response` (lines 256..282). -/
def sdo_async__feed_init_dl_response (self : sdo_async) (cf : can_frame) :
    sdo_async × List sdo_event × Int :=
  if cf.can_dlc < 4 then
    let r := sdo_async__abort self SDO_ABORT_GENERAL
    (r.1, r.2, -1)
  else if sdo_get_cs cf ≠ SDO_SCS_DL_INIT_RES then
    let r := sdo_async__abort self SDO_ABORT_INVALID_CS
    (r.1, r.2, -1)
  else if self.quirk_ignore_multiplexer = false
       ∧ (sdo_get_index cf ≠ self.index ∨ sdo_get_subindex cf ≠ self.subindex) then
    let r := sdo_async__abort self SDO_ABORT_GENERAL
    (r.1, r.2, -1)
  else if sdo_async__is_expediated self then
    let r := sdo_async__on_done { self with status := sdo_req_status.req_ok }
    (r.1, r.2, 0)
  else
    let r := sdo_async__request_dl_segment self
    ({ r.1 with comm_state := sdo_async_comm_state.comm_seg_response }, r.2, 0)

/-- Embeds `sdo_async__handle_expediated_ul` (lines 284..297): record the
size-indicated flag, copy the expedited payload into the buffer, complete
with Ok. -/
def sdo_async__handle_expediated_ul (self : sdo_async) (cf : can_frame) :
    sdo_async × List sdo_event × Int :=
  let ind := sdo_is_size_indicated cf
  let size := if ind then sdo_get_expediated_size cf else SDO_EXPEDIATED_DATA_SIZE
  let s := { self with
    is_size_indicated := ind
    buffer := (cf.data.drop SDO_EXPEDIATED_DATA_IDX).take size
    status := sdo_req_status.req_ok }
  let r := sdo_async__on_done s
  (r.1, r.2, 0)

/-- Embeds `sdo_async__handle_init_segmented_ul` (lines 311..323): record the
size-indicated flag (the `vector_reserve` pre-allocation hint is modelled
as always succeeding, so the NOMEM abort is never taken), request the
first upload segment, move to the segment phase. -/
def sdo_async__handle_init_segmented_ul (self : sdo_async) (cf : can_frame) :
    sdo_async × List sdo_event × Int :=
  let s := { self with is_size_indicated := sdo_is_size_indicated cf }
  let r := sdo_async__request_ul_segment s
  ({ r.1 with comm_state := sdo_async_comm_state.comm_seg_response }, r.2, 0)

/-- Embeds `sdo_async__feed_init_ul_response` (lines 325..345). -/
def sdo_async__feed_init_ul_response (self : sdo_async) (cf : can_frame) :
    sdo_async × List sdo_event × Int :=
  if cf.can_dlc < 4 then
    let r := sdo_async__abort self SDO_ABORT_GENERAL
    (r.1, r.2, -1)
  else if sdo_get_cs cf ≠ SDO_SCS_UL_INIT_RES then
    let r := sdo_async__abort self SDO_ABORT_INVALID_CS
    (r.1, r.2, -1)
  else if self.quirk_ignore_multiplexer = false
       ∧ (sdo_get_index cf ≠ self.index ∨ sdo_get_subindex cf ≠ self.subindex) then
    let r := sdo_async__abort self SDO_ABORT_GENERAL
    (r.1, r.2, -1)
  else if sdo_is_expediated cf then
    sdo_async__handle_expediated_ul self cf
  else
    sdo_async__handle_init_segmented_ul self cf

/-- Embeds `sdo_async__feed_init_response` (lines 347..357). -/
def sdo_async__feed_init_response (self : sdo_async) (cf : can_frame) :
    sdo_async × List sdo_event × Int :=
  match self.type with
  | sdo_req_type.download => sdo_async__feed_init_dl_response self cf
  | sdo_req_type.upload => sdo_async__feed_init_ul_response self cf

/-- Embeds `sdo_async__feed_dl_seg_response` (lines 359..382). -/
def sdo_async__feed_dl_seg_response (self : sdo_async) (cf : can_frame) :
    sdo_async × List sdo_event × Int :=
  if cf.can_dlc < 1 then
    let r := sdo_async__abort self SDO_ABORT_GENERAL
    (r.1, r.2, -1)
  else if sdo_get_cs cf ≠ SDO_SCS_DL_SEG_RES then
    let r := sdo_async__abort self SDO_ABORT_INVALID_CS
    (r.1, r.2, -1)
  else if sdo_async__is_at_end self = false ∧ sdo_is_toggled cf ≠ self.is_toggled then
    let r := sdo_async__abort self SDO_ABORT_TOGGLE
    (r.1, r.2, -1)
  else
    let s := { self with is_toggled := ! self.is_toggled }
    if sdo_async__is_at_end s then
      let r := sdo_async__on_done { s with status := sdo_req_status.req_ok }
      (r.1, r.2, 0)
    else
      let r := sdo_async__request_dl_segment s
      (r.1, r.2, 0)

/-- Embeds `sdo_async__feed_ul_seg_response` (lines 384..412): the
`vector_append` growth is modelled as always succeeding, so the NOMEM
abort is never taken. -/
def sdo_async__feed_ul_seg_response (self : sdo_async) (cf : can_frame) :
    sdo_async × List sdo_event × Int :=
  if cf.can_dlc < 1 then
    let r := sdo_async__abort self SDO_ABORT_GENERAL
    (r.1, r.2, -1)
  else if sdo_get_cs cf ≠ SDO_SCS_UL_SEG_RES then
    let r := sdo_async__abort self SDO_ABORT_INVALID_CS
    (r.1, r.2, -1)
  else if sdo_is_end_segment cf = false ∧ sdo_is_toggled cf ≠ self.is_toggled then
    let r := sdo_async__abort self SDO_ABORT_TOGGLE
    (r.1, r.2, -1)
  else
    let s0 := { self with is_toggled := ! self.is_toggled }
    let size := sdo_get_segment_size cf
    let s := { s0 with
      buffer := s0.buffer ++ (cf.data.drop SDO_SEGMENT_IDX).take size }
    if sdo_is_end_segment cf then
      let r := sdo_async__on_done { s with status := sdo_req_status.req_ok }
      (r.1, r.2, 0)
    else
      let r := sdo_async__request_ul_segment s
      (r.1, r.2, 0)

/-- Embeds `sdo_async__feed_seg_response` (lines 414..424). -/
def sdo_async__feed_seg_response (self : sdo_async) (cf : can_frame) :
    sdo_async × List sdo_event × Int :=
  match self.type with
  | sdo_req_type.download => sdo_async__feed_dl_seg_response self cf
  | sdo_req_type.upload => sdo_async__feed_ul_seg_response self cf

/-- Embeds `sdo_async_feed` (lines 426..453).  The entry `assert` on the CAN id
and the `abort()` call reachable only with `comm_state == START` while
running are modelled as `none` (the C program stops there); every defined
execution is `some`.  A frame fed while not running is ignored with
return value −1; otherwise the timer is stopped, a remote abort is
recorded if the command specifier is ABORT, and the frame is dispatched
by communication phase. -/
def sdo_async_feed (self : sdo_async) (cf : can_frame) :
    Option (sdo_async × List sdo_event × Int) :=
  if cf.can_id ≠ R_TSDO + self.nodeid then none
  else if self.is_running = false then some (self, [], -1)
  else
    let s0 : sdo_async := { self with timer_armed := false }
    if sdo_get_cs cf = SDO_CS_ABORT then
      let s1 := { s0 with
        status := sdo_req_status.req_remote_abort
        abort_code := sdo_get_abort_code cf }
      let r := sdo_async__on_done s1
      some (r.1, sdo_event.timer_stop :: r.2, 0)
    else
      match s0.comm_state with
      | sdo_async_comm_state.comm_init_response =>
        let r := sdo_async__feed_init_response s0 cf
        some (r.1, sdo_event.timer_stop :: r.2.1, r.2.2)
      | sdo_async_comm_state.comm_seg_response =>
        let r := sdo_async__feed_seg_response s0 cf
        some (r.1, sdo_event.timer_stop :: r.2.1, r.2.2)
      | sdo_async_comm_state.comm_start => none

/-! ## Trace semantics.
The owner's possible actions on a live instance: `start`, `stop`,
feeding a received frame, and delivery of the timer expiry.  The timeout
event can only be delivered while the timer is armed (a stopped one-shot
timer does not fire); steps whose C execution stops (a violated `assert`,
the defensive `abort()`) leave the state unchanged and produce no event,
so they contribute nothing to any trace property. -/

inductive sdo_op where
  | op_start (info : sdo_async_info)
  | op_stop
  | op_feed (cf : can_frame)
  | op_timeout
deriving DecidableEq, Repr

/-- One externally triggered step of the machine. -/
def stepOp (s : sdo_async) (o : sdo_op) : sdo_async × List sdo_event :=
  match o with
  | sdo_op.op_start info =>
    let r := sdo_async_start s info
    (r.1, r.2.1)
  | sdo_op.op_stop =>
    let r := sdo_async_stop s
    (r.1, r.2.1)
  | sdo_op.op_feed cf =>
    match sdo_async_feed s cf with
    | some r => (r.1, r.2.1)
    | none => (s, [])
  | sdo_op.op_timeout =>
    if s.timer_armed then sdo_async__on_timeout s else (s, [])

/-- Run a sequence of externally triggered steps, accumulating events. -/
def runOps : sdo_async → List sdo_op → sdo_async × List sdo_event
  | s, [] => (s, [])
  | s, o :: rest =>
    let r1 := stepOp s o
    let r2 := runOps r1.1 rest
    (r2.1, r1.2 ++ r2.2)

/-- The emitted download segment frames, as iterated by the source:
`sdo_async__request_dl_segment` sends one segment, and on each
acknowledgement `sdo_async__feed_dl_seg_response` flips the toggle and
requests the next one until the cursor reaches the end of the buffer.
`fuel` bounds the number of segments. -/
def dl_segment_frames : Nat → sdo_async → List can_frame × sdo_async
  | 0, s => ([], s)
  | fuel + 1, s =>
    if s.pos < s.buffer.length then
      let r := sdo_async__request_dl_segment s
      let s2 := { r.1 with is_toggled := ! r.1.is_toggled }
      let rest := dl_segment_frames fuel s2
      (sentFrames r.2 ++ rest.1, rest.2)
    else ([], s)

/-! ## Characterization lemmas. -/

theorem helper_on_done_eq (s : sdo_async) :
    sdo_async__on_done s =
      ({ s with is_running := false, timer_armed := false },
       sdo_event.timer_stop :: sdo_event.on_done_entered ::
         ((if s.on_done_cb then [sdo_event.callback] else []) ++
          (if s.context ≠ 0 ∧ s.free_fn = true
           then [sdo_event.released s.context] else []))) := by
  simp only [sdo_async__on_done, sdo_async__on_done_gen, std_cb]
  split <;> simp

theorem helper_countDone_on_done (s : sdo_async) :
    countDone (sdo_async__on_done s).2 = 1 := by
  rw [helper_on_done_eq]
  simp only [countDone, List.countP_cons, List.countP_append, List.countP_nil]
  split_ifs <;> simp_all [List.countP_cons]

theorem helper_abort_state (s : sdo_async) (code : Nat) :
    (sdo_async__abort s code).1 =
      { s with status := sdo_req_status.req_local_abort, abort_code := code,
               is_running := false, timer_armed := false } := by
  simp only [sdo_async__abort]
  rw [helper_on_done_eq]

theorem helper_countDone_abort (s : sdo_async) (code : Nat) :
    countDone (sdo_async__abort s code).2 = 1 := by
  simp only [sdo_async__abort]
  rw [helper_on_done_eq]
  simp only [countDone, List.countP_cons, List.countP_append, List.countP_nil]
  split_ifs <;> simp_all [List.countP_cons]

theorem helper_request_dl_state (s : sdo_async) :
    (sdo_async__request_dl_segment s).1 =
      { s with pos := s.pos + min SDO_SEGMENT_MAX_SIZE (s.buffer.length - s.pos),
               timer_armed := true } := by
  simp [sdo_async__request_dl_segment]

theorem helper_countDone_request_dl (s : sdo_async) :
    countDone (sdo_async__request_dl_segment s).2 = 0 := by
  simp [sdo_async__request_dl_segment, countDone]

theorem helper_request_ul_state (s : sdo_async) :
    (sdo_async__request_ul_segment s).1 = { s with timer_armed := true } := by
  simp [sdo_async__request_ul_segment]

theorem helper_countDone_request_ul (s : sdo_async) :
    countDone (sdo_async__request_ul_segment s).2 = 0 := by
  simp [sdo_async__request_ul_segment, countDone]

theorem helper_send_init_state (s : sdo_async) :
    (sdo_async__send_init s).1 = { s with timer_armed := true } := by
  cases h : s.type <;>
    simp [sdo_async__send_init, sdo_async__send_init_dl, sdo_async__send_init_ul, h]

theorem helper_countDone_send_init (s : sdo_async) :
    countDone (sdo_async__send_init s).2 = 0 := by
  cases h : s.type <;>
    simp [sdo_async__send_init, sdo_async__send_init_dl, sdo_async__send_init_ul, h,
      countDone]

/-- The shape of the state and events after one internally dispatched step
while a transaction is running: either the transaction goes on (running,
timer re-armed, a real phase, no completion) or it has completed (not
running, timer stopped, exactly one completion). -/
def stepOut (s1 : sdo_async) (evs : List sdo_event) : Prop :=
  (s1.is_running = true ∧ s1.timer_armed = true
     ∧ s1.comm_state ≠ sdo_async_comm_state.comm_start ∧ countDone evs = 0)
  ∨ (s1.is_running = false ∧ s1.timer_armed = false ∧ countDone evs = 1)

theorem helper_stepOut_abort (s : sdo_async) (code : Nat) :
    stepOut (sdo_async__abort s code).1 (sdo_async__abort s code).2 := by
  right
  refine ⟨?_, ?_, helper_countDone_abort s code⟩ <;> rw [helper_abort_state]

theorem helper_stepOut_on_done (s : sdo_async) :
    stepOut (sdo_async__on_done s).1 (sdo_async__on_done s).2 := by
  right
  refine ⟨?_, ?_, helper_countDone_on_done s⟩ <;> rw [helper_on_done_eq]

theorem helper_countDone_cons_ts (evs : List sdo_event) :
    countDone (sdo_event.timer_stop :: evs) = countDone evs := by
  simp [countDone, List.countP_cons]

theorem helper_stepOut_cons_ts (s : sdo_async) (evs : List sdo_event)
    (h : stepOut s evs) : stepOut s (sdo_event.timer_stop :: evs) := by
  cases h with
  | inl h => exact Or.inl ⟨h.1, h.2.1, h.2.2.1, by rw [helper_countDone_cons_ts]; exact h.2.2.2⟩
  | inr h => exact Or.inr ⟨h.1, h.2.1, by rw [helper_countDone_cons_ts]; exact h.2.2⟩

theorem helper_stepOut_feed_init_dl (s : sdo_async) (cf : can_frame)
    (hrun : s.is_running = true) :
    stepOut (sdo_async__feed_init_dl_response s cf).1
      (sdo_async__feed_init_dl_response s cf).2.1 := by
  simp only [sdo_async__feed_init_dl_response]
  split_ifs with h1 h2 h3 h4
  · exact helper_stepOut_abort _ _
  · exact helper_stepOut_abort _ _
  · exact helper_stepOut_abort _ _
  · exact helper_stepOut_on_done _
  · left
    simp [helper_request_dl_state, helper_countDone_request_dl, hrun]

theorem helper_stepOut_feed_init_ul (s : sdo_async) (cf : can_frame)
    (hrun : s.is_running = true) :
    stepOut (sdo_async__feed_init_ul_response s cf).1
      (sdo_async__feed_init_ul_response s cf).2.1 := by
  simp only [sdo_async__feed_init_ul_response]
  split_ifs with h1 h2 h3 h4
  · exact helper_stepOut_abort _ _
  · exact helper_stepOut_abort _ _
  · exact helper_stepOut_abort _ _
  · simp only [sdo_async__handle_expediated_ul]
    exact helper_stepOut_on_done _
  · simp only [sdo_async__handle_init_segmented_ul]
    left
    simp [helper_request_ul_state, helper_countDone_request_ul, hrun]

theorem helper_stepOut_feed_dl_seg (s : sdo_async) (cf : can_frame)
    (hrun : s.is_running = true)
    (hcs : s.comm_state = sdo_async_comm_state.comm_seg_response) :
    stepOut (sdo_async__feed_dl_seg_response s cf).1
      (sdo_async__feed_dl_seg_response s cf).2.1 := by
  simp only [sdo_async__feed_dl_seg_response]
  split_ifs with h1 h2 h3 h4
  · exact helper_stepOut_abort _ _
  · exact helper_stepOut_abort _ _
  · exact helper_stepOut_abort _ _
  · exact helper_stepOut_on_done _
  · left
    simp [helper_request_dl_state, helper_countDone_request_dl, hrun, hcs]

theorem helper_stepOut_feed_ul_seg (s : sdo_async) (cf : can_frame)
    (hrun : s.is_running = true)
    (hcs : s.comm_state = sdo_async_comm_state.comm_seg_response) :
    stepOut (sdo_async__feed_ul_seg_response s cf).1
      (sdo_async__feed_ul_seg_response s cf).2.1 := by
  simp only [sdo_async__feed_ul_seg_response]
  split_ifs with h1 h2 h3 h4
  · exact helper_stepOut_abort _ _
  · exact helper_stepOut_abort _ _
  · exact helper_stepOut_abort _ _
  · exact helper_stepOut_on_done _
  · left
    simp [helper_request_ul_state, helper_countDone_request_ul, hrun, hcs]

theorem helper_stepOut_feed_init (s : sdo_async) (cf : can_frame)
    (hrun : s.is_running = true) :
    stepOut (sdo_async__feed_init_response s cf).1
      (sdo_async__feed_init_response s cf).2.1 := by
  cases ht : s.type with
  | download =>
    simp only [sdo_async__feed_init_response, ht]
    exact helper_stepOut_feed_init_dl _ _ hrun
  | upload =>
    simp only [sdo_async__feed_init_response, ht]
    exact helper_stepOut_feed_init_ul _ _ hrun

theorem helper_stepOut_feed_seg (s : sdo_async) (cf : can_frame)
    (hrun : s.is_running = true)
    (hcs : s.comm_state = sdo_async_comm_state.comm_seg_response) :
    stepOut (sdo_async__feed_seg_response s cf).1
      (sdo_async__feed_seg_response s cf).2.1 := by
  cases ht : s.type with
  | download =>
    simp only [sdo_async__feed_seg_response, ht]
    exact helper_stepOut_feed_dl_seg _ _ hrun hcs
  | upload =>
    simp only [sdo_async__feed_seg_response, ht]
    exact helper_stepOut_feed_ul_seg _ _ hrun hcs

theorem helper_stepOut_feed (s : sdo_async) (cf : can_frame)
    (r : sdo_async × List sdo_event × Int)
    (hrun : s.is_running = true)
    (hcs : s.comm_state ≠ sdo_async_comm_state.comm_start)
    (h : sdo_async_feed s cf = some r) :
    stepOut r.1 r.2.1 := by
  simp only [sdo_async_feed] at h
  split_ifs at h with hid hnr habort
  · simp [hrun] at hnr
  · injection h with h
    subst h
    exact helper_stepOut_cons_ts _ _ (helper_stepOut_on_done _)
  · cases hc : s.comm_state with
    | comm_start => exact absurd hc hcs
    | comm_init_response =>
      simp only [hc] at h
      injection h with h
      subst h
      exact helper_stepOut_cons_ts _ _ (helper_stepOut_feed_init _ _ hrun)
    | comm_seg_response =>
      simp only [hc] at h
      injection h with h
      subst h
      exact helper_stepOut_cons_ts _ _ (helper_stepOut_feed_seg _ _ hrun rfl)

theorem helper_countDone_append (a b : List sdo_event) :
    countDone (a ++ b) = countDone a + countDone b := by
  simp [countDone, List.countP_append]

theorem helper_step_running (s : sdo_async) (o : sdo_op)
    (hrun : s.is_running = true) (harm : s.timer_armed = true)
    (hcs : s.comm_state ≠ sdo_async_comm_state.comm_start)
    (hns : ∀ i, o ≠ sdo_op.op_start i) (hnt : o ≠ sdo_op.op_stop) :
    stepOut (stepOp s o).1 (stepOp s o).2 ∧
      (o = sdo_op.op_timeout →
        ((stepOp s o).1.is_running = false ∧ (stepOp s o).1.timer_armed = false
          ∧ countDone (stepOp s o).2 = 1)) := by
  cases o with
  | op_start info => exact absurd rfl (hns info)
  | op_stop => exact absurd rfl hnt
  | op_feed cf =>
    constructor
    · simp only [stepOp]
      cases hf : sdo_async_feed s cf with
      | none => exact Or.inl ⟨hrun, harm, hcs, by simp [countDone]⟩
      | some r => exact helper_stepOut_feed s cf r hrun hcs hf
    · intro hcon
      exact absurd hcon (by simp)
  | op_timeout =>
    have heq : stepOp s sdo_op.op_timeout
        = sdo_async__abort s SDO_ABORT_TIMEOUT := by
      simp [stepOp, harm, sdo_async__on_timeout]
    rw [heq]
    refine ⟨helper_stepOut_abort s SDO_ABORT_TIMEOUT, fun _ => ⟨?_, ?_, ?_⟩⟩
    · rw [helper_abort_state]
    · rw [helper_abort_state]
    · exact helper_countDone_abort s SDO_ABORT_TIMEOUT

theorem helper_step_idle (s : sdo_async) (o : sdo_op)
    (hrun : s.is_running = false) (harm : s.timer_armed = false)
    (hns : ∀ i, o ≠ sdo_op.op_start i) :
    stepOp s o = (s, []) := by
  cases o with
  | op_start info => exact absurd rfl (hns info)
  | op_stop => simp [stepOp, sdo_async_stop, hrun]
  | op_timeout => simp [stepOp, harm]
  | op_feed cf =>
    simp only [stepOp, sdo_async_feed, hrun]
    split_ifs <;> simp

theorem helper_run_idle (s : sdo_async) (ops : List sdo_op)
    (hrun : s.is_running = false) (harm : s.timer_armed = false)
    (hns : ∀ o ∈ ops, ∀ i, o ≠ sdo_op.op_start i) :
    runOps s ops = (s, []) := by
  induction ops with
  | nil => rfl
  | cons o rest ih =>
    simp only [runOps]
    rw [helper_step_idle s o hrun harm (hns o (by simp))]
    rw [ih fun x hx i => hns x (by simp [hx]) i]
    rfl

theorem helper_run_running (s : sdo_async) (ops : List sdo_op)
    (hrun : s.is_running = true) (harm : s.timer_armed = true)
    (hcs : s.comm_state ≠ sdo_async_comm_state.comm_start)
    (hops : ∀ o ∈ ops, (∀ i, o ≠ sdo_op.op_start i) ∧ o ≠ sdo_op.op_stop) :
    countDone (runOps s ops).2 ≤ 1
      ∧ (sdo_op.op_timeout ∈ ops → countDone (runOps s ops).2 = 1) := by
  induction ops generalizing s with
  | nil => exact ⟨by simp [runOps, countDone], by simp⟩
  | cons o rest ih =>
    have hor := hops o (by simp)
    have hstep := helper_step_running s o hrun harm hcs hor.1 hor.2
    have hrest : ∀ x ∈ rest, (∀ i, x ≠ sdo_op.op_start i) ∧ x ≠ sdo_op.op_stop :=
      fun x hx => hops x (by simp [hx])
    simp only [runOps, helper_countDone_append]
    cases hstep.1 with
    | inl hcont =>
      have hrec := ih (stepOp s o).1 hcont.1 hcont.2.1 hcont.2.2.1 hrest
      refine ⟨by omega, fun hmem => ?_⟩
      rcases List.mem_cons.mp hmem with hmem | hmem
      · exact absurd hcont.2.2.2.symm (by
          have := (hstep.2 hmem.symm).2.2
          omega)
      · have := hrec.2 hmem
        omega
    | inr hdone =>
      have hidle := helper_run_idle (stepOp s o).1 rest hdone.1 hdone.2.1
        (fun x hx i => (hrest x hx).1 i)
      rw [hidle]
      have h1 := hdone.2.2
      simp only [countDone] at h1 ⊢
      refine ⟨?_, fun _ => ?_⟩ <;> simp [h1]

theorem helper_start_char (s : sdo_async) (info : sdo_async_info)
    (h : s.is_running = false) :
    (sdo_async_start s info).1.is_running = true
    ∧ (sdo_async_start s info).1.timer_armed = true
    ∧ (sdo_async_start s info).1.comm_state = sdo_async_comm_state.comm_init_response
    ∧ countDone (sdo_async_start s info).2.1 = 0
    ∧ (sdo_async_start s info).2.2 = 0 := by
  simp only [sdo_async_start, h]
  simp [helper_send_init_state, helper_countDone_send_init]

/-- C1: after every successful `start`, the completion path (`on_done`:
stop the timer, clear `is_running`, invoke the user callback when
non-null) runs at most once over any subsequent sequence of `feed` and
timeout events, and exactly once as soon as the sequence contains the
timeout event — never twice, and never zero times unless the owner only
ever feeds non-completing frames and the timer never fires (the owner's
`stop` being excluded, as the claim allows). -/
theorem sdo_async_completion_exactly_once (s : sdo_async) (info : sdo_async_info)
    (ops : List sdo_op) (hidle : s.is_running = false)
    (hops : ∀ o ∈ ops, (∀ i, o ≠ sdo_op.op_start i) ∧ o ≠ sdo_op.op_stop) :
    (sdo_async_start s info).2.2 = 0
    ∧ countDone (sdo_async_start s info).2.1 = 0
    ∧ countDone (runOps (sdo_async_start s info).1 ops).2 ≤ 1
    ∧ (sdo_op.op_timeout ∈ ops →
        countDone (runOps (sdo_async_start s info).1 ops).2 = 1) := by
  obtain ⟨h1, h2, h3, h4, h5⟩ := helper_start_char s info hidle
  have hrr := helper_run_running (sdo_async_start s info).1 ops h1 h2
    (by rw [h3]; intro hx; cases hx) hops
  exact ⟨h5, h4, hrr.1, hrr.2⟩

/-- Concrete input for the C1 witness: an expedited download request. -/
def infoW : sdo_async_info :=
  { type := sdo_req_type.download, index := 0x1017, subindex := 0,
    timeout := 1, on_done_cb := true, context := 7, free_fn := true,
    data := [1, 2, 3] }

theorem sdo_async_completion_exactly_once_witness :
    (sdo_async_init 5).is_running = false
    ∧ countDone
        (runOps (sdo_async_start (sdo_async_init 5) infoW).1
          [sdo_op.op_timeout]).2 = 1 :=
  ⟨rfl,
   (sdo_async_completion_exactly_once (sdo_async_init 5) infoW
      [sdo_op.op_timeout] rfl (by
        intro o ho
        simp only [List.mem_singleton] at ho
        subst ho
        exact ⟨fun i => by simp, by simp⟩)).2.2.2 (by decide)⟩

theorem helper_on_done_not_running (s : sdo_async) :
    (sdo_async__on_done s).1.is_running = false := by
  rw [helper_on_done_eq]

theorem helper_feed_inv_comm (s : sdo_async) (cf : can_frame)
    (r : sdo_async × List sdo_event × Int)
    (hf : sdo_async_feed s cf = some r) :
    r.1.is_running = true → r.1.comm_state ≠ sdo_async_comm_state.comm_start := by
  simp only [sdo_async_feed] at hf
  split_ifs at hf with hid hnr habort
  · injection hf with hf
    subst hf
    exact fun h => absurd h (by simp [hnr])
  · injection hf with hf
    subst hf
    intro h
    dsimp only at h
    rw [helper_on_done_not_running] at h
    cases h
  · have hrun : s.is_running = true := by
      cases hb : s.is_running with
      | false => exact absurd hb hnr
      | true => rfl
    cases hc : s.comm_state with
    | comm_start => simp only [hc] at hf; cases hf
    | comm_init_response =>
      simp only [hc] at hf
      injection hf with hf
      subst hf
      intro h
      dsimp only at h ⊢
      rcases helper_stepOut_feed_init
        { s with comm_state := sdo_async_comm_state.comm_init_response, timer_armed := false }
        cf hrun with hx | hx
      · exact hx.2.2.1
      · rw [hx.1] at h
        cases h
    | comm_seg_response =>
      simp only [hc] at hf
      injection hf with hf
      subst hf
      intro h
      dsimp only at h ⊢
      rcases helper_stepOut_feed_seg
        { s with comm_state := sdo_async_comm_state.comm_seg_response, timer_armed := false }
        cf hrun rfl with hx | hx
      · exact hx.2.2.1
      · rw [hx.1] at h
        cases h

theorem helper_step_inv_comm (s : sdo_async) (o : sdo_op)
    (hinv : s.is_running = true → s.comm_state ≠ sdo_async_comm_state.comm_start) :
    (stepOp s o).1.is_running = true →
      (stepOp s o).1.comm_state ≠ sdo_async_comm_state.comm_start := by
  cases o with
  | op_start info =>
    cases hb : s.is_running with
    | true =>
      have he : stepOp s (sdo_op.op_start info) = (s, []) := by
        simp [stepOp, sdo_async_start, hb]
      rw [he]
      exact hinv
    | false =>
      have he : (stepOp s (sdo_op.op_start info)).1.comm_state
          = sdo_async_comm_state.comm_init_response := by
        simp [stepOp, sdo_async_start, hb, helper_send_init_state]
      intro _
      rw [he]
      decide
  | op_stop =>
    cases hb : s.is_running with
    | false =>
      have he : stepOp s sdo_op.op_stop = (s, []) := by
        simp [stepOp, sdo_async_stop, hb]
      rw [he]
      exact hinv
    | true =>
      have he : (stepOp s sdo_op.op_stop).1.is_running = false := by
        simp [stepOp, sdo_async_stop, hb]
      intro h
      rw [he] at h
      cases h
  | op_timeout =>
    cases hb : s.timer_armed with
    | false =>
      have he : stepOp s sdo_op.op_timeout = (s, []) := by
        simp [stepOp, hb]
      rw [he]
      exact hinv
    | true =>
      have he : (stepOp s sdo_op.op_timeout).1.is_running = false := by
        simp [stepOp, hb, sdo_async__on_timeout, helper_abort_state]
      intro h
      rw [he] at h
      cases h
  | op_feed cf =>
    simp only [stepOp]
    cases hf : sdo_async_feed s cf with
    | none => exact hinv
    | some r => exact helper_feed_inv_comm s cf r hf

theorem helper_run_inv_comm (s : sdo_async) (ops : List sdo_op)
    (hinv : s.is_running = true → s.comm_state ≠ sdo_async_comm_state.comm_start) :
    (runOps s ops).1.is_running = true →
      (runOps s ops).1.comm_state ≠ sdo_async_comm_state.comm_start := by
  induction ops generalizing s with
  | nil => exact hinv
  | cons o rest ih =>
    simp only [runOps]
    exact ih (stepOp s o).1 (helper_step_inv_comm s o hinv)

/-- C2 (amended): in every state reachable from the freshly initialised
instance by `start`, `stop`, `feed` and timeout events, `is_running = true`
implies `comm_state ≠ Start`.  The spec's converse direction fails: neither
`on_done` nor `stop` resets `comm_state`, so after a completed transaction
the instance has `is_running = false` with `comm_state` still at its last
value (see the counterexample). -/
theorem sdo_async_running_imp_comm_state_not_start (nodeid : Nat)
    (ops : List sdo_op) :
    (runOps (sdo_async_init nodeid) ops).1.is_running = true →
    (runOps (sdo_async_init nodeid) ops).1.comm_state
      ≠ sdo_async_comm_state.comm_start :=
  helper_run_inv_comm (sdo_async_init nodeid) ops
    (fun h => by simp [sdo_async_init] at h)

theorem sdo_async_running_imp_comm_state_not_start_witness :
    (runOps (sdo_async_init 5) [sdo_op.op_start infoW]).1.comm_state
      ≠ sdo_async_comm_state.comm_start :=
  sdo_async_running_imp_comm_state_not_start 5 [sdo_op.op_start infoW]
    (by decide)

/-- Concrete download-init response addressed to node 5 with multiplexer
(0x1017, 0): command specifier DL_INIT_RES. -/
def dlInitResW : can_frame :=
  { can_id := 0x585, can_dlc := 8, data := [0x60, 0x17, 0x10, 0, 0, 0, 0, 0] }

/-- C2 counterexample: a completed expedited download leaves the machine
with `is_running = false` while `comm_state` is still
`AwaitingInitResponse`, so `comm_state = Start ⇔ is_running = false` is
violated in a reachable state. -/
theorem sdo_async_comm_state_stale_counterexample :
    (runOps (sdo_async_init 5)
        [sdo_op.op_start infoW, sdo_op.op_feed dlInitResW]).1.is_running = false
    ∧ (runOps (sdo_async_init 5)
        [sdo_op.op_start infoW, sdo_op.op_feed dlInitResW]).1.comm_state
      = sdo_async_comm_state.comm_init_response := by
  decide

/-- C8: `stop` fails and is a no-op when not running; when running it
stops the timer, releases the user context exactly when both the context
and the release function are non-null, clears `is_running`, sends no
frame, never enters the completion path or the user callback, and leaves
`status` and `abort_code` (and every other request field) unchanged. -/
theorem sdo_async_stop_behaviour (s : sdo_async) :
    (s.is_running = false → sdo_async_stop s = (s, [], -1))
    ∧ (s.is_running = true →
        (sdo_async_stop s).2.2 = 0
        ∧ (sdo_async_stop s).1
            = { s with is_running := false, timer_armed := false }
        ∧ sentFrames (sdo_async_stop s).2.1 = []
        ∧ countDone (sdo_async_stop s).2.1 = 0
        ∧ sdo_event.callback ∉ (sdo_async_stop s).2.1
        ∧ (s.context ≠ 0 ∧ s.free_fn = true →
            (sdo_async_stop s).2.1
              = [sdo_event.timer_stop, sdo_event.released s.context])
        ∧ (¬(s.context ≠ 0 ∧ s.free_fn = true) →
            (sdo_async_stop s).2.1 = [sdo_event.timer_stop])) := by
  constructor
  · intro h
    simp [sdo_async_stop, h]
  · intro h
    have hc : (s.is_running = false) = False := by simp [h]
    refine ⟨?_, ?_, ?_, ?_, ?_, ?_, ?_⟩ <;>
      simp only [sdo_async_stop, hc, if_false] <;>
      by_cases hcf : s.context ≠ 0 ∧ s.free_fn = true <;>
      simp [hcf, sentFrames, countDone]

/-- Concrete running state for witnesses: node 5 just after starting the
expedited download described by `infoW`. -/
def runningW : sdo_async := (sdo_async_start (sdo_async_init 5) infoW).1

theorem sdo_async_stop_behaviour_witness :
    runningW.is_running = true
    ∧ (sdo_async_stop runningW).2.2 = 0
    ∧ (sdo_async_stop runningW).1.is_running = false
    ∧ sdo_async_stop (sdo_async_init 5) = (sdo_async_init 5, [], -1) :=
  ⟨by decide,
   ((sdo_async_stop_behaviour runningW).2 (by decide)).1,
   by rw [((sdo_async_stop_behaviour runningW).2 (by decide)).2.1],
   (sdo_async_stop_behaviour (sdo_async_init 5)).1 (by decide)⟩

/-- C10: a frame fed to a non-running instance (with the CAN id the entry
assertion requires) is ignored: `feed` returns −1, changes no state field
and produces no event. -/
theorem sdo_async_feed_not_running_noop (s : sdo_async) (cf : can_frame)
    (hid : cf.can_id = R_TSDO + s.nodeid) (h : s.is_running = false) :
    sdo_async_feed s cf = some (s, [], -1) := by
  simp [sdo_async_feed, hid, h]

theorem sdo_async_feed_not_running_noop_witness :
    sdo_async_feed (sdo_async_init 5) dlInitResW
      = some (sdo_async_init 5, [], -1) :=
  sdo_async_feed_not_running_noop (sdo_async_init 5) dlInitResW
    (by decide) (by decide)

theorem helper_abort_sent (s : sdo_async) (code : Nat) :
    sentFrames (sdo_async__abort s code).2
      = [sdo_async__send_frame { s with timer_armed := false }
          (sdo_abort (sdo_async__init_frame { s with timer_armed := false })
            code s.index s.subindex)] := by
  simp only [sdo_async__abort]
  rw [helper_on_done_eq]
  simp only [sentFrames, List.filterMap_cons, List.filterMap_append]
  split_ifs <;> simp [sentFrames]

theorem helper_abort_frame_fields (s : sdo_async) (code : Nat)
    (hcode : code < 4294967296) (hidx : s.index < 65536) (hsub : s.subindex < 256) :
    (sdo_async__send_frame { s with timer_armed := false }
        (sdo_abort (sdo_async__init_frame { s with timer_armed := false })
          code s.index s.subindex)).can_id = R_RSDO + s.nodeid
    ∧ sdo_get_cs (sdo_async__send_frame { s with timer_armed := false }
        (sdo_abort (sdo_async__init_frame { s with timer_armed := false })
          code s.index s.subindex)) = SDO_CS_ABORT
    ∧ sdo_get_abort_code (sdo_async__send_frame { s with timer_armed := false }
        (sdo_abort (sdo_async__init_frame { s with timer_armed := false })
          code s.index s.subindex)) = code
    ∧ sdo_get_index (sdo_async__send_frame { s with timer_armed := false }
        (sdo_abort (sdo_async__init_frame { s with timer_armed := false })
          code s.index s.subindex)) = s.index
    ∧ sdo_get_subindex (sdo_async__send_frame { s with timer_armed := false }
        (sdo_abort (sdo_async__init_frame { s with timer_armed := false })
          code s.index s.subindex)) = s.subindex := by
  cases hq : s.quirk_needs_full_frame <;>
    refine ⟨?_, ?_, ?_, ?_, ?_⟩ <;>
    simp [sdo_async__send_frame, hq, sdo_abort, sdo_async__init_frame,
      sdo_clear_frame, sdo_set_cs, sdo_set_index, sdo_set_subindex,
      sdo_set_abort_code, set_byte, get_byte, sdo_get_cs, sdo_get_abort_code,
      sdo_get_index, sdo_get_subindex, List.set, SDO_CS_ABORT] <;>
    first
    | decide
    | omega

/-- C7: when the timer fires on a running transaction, the machine sends
exactly one frame — an Abort addressed to 0x600 + nodeid carrying abort
code TIMEOUT and the transaction's index and subindex — sets
`status = LocalAbort` and `abort_code = TIMEOUT`, and enters the
completion path exactly once. -/
theorem sdo_async_timeout_behaviour (s : sdo_async)
    (hrun : s.is_running = true)
    (hidx : s.index < 65536) (hsub : s.subindex < 256) :
    ∃ cf, sentFrames (sdo_async__on_timeout s).2 = [cf]
      ∧ cf.can_id = R_RSDO + s.nodeid
      ∧ sdo_get_cs cf = SDO_CS_ABORT
      ∧ sdo_get_abort_code cf = SDO_ABORT_TIMEOUT
      ∧ sdo_get_index cf = s.index
      ∧ sdo_get_subindex cf = s.subindex
      ∧ (sdo_async__on_timeout s).1.status = sdo_req_status.req_local_abort
      ∧ (sdo_async__on_timeout s).1.abort_code = SDO_ABORT_TIMEOUT
      ∧ (sdo_async__on_timeout s).1.is_running = false
      ∧ countDone (sdo_async__on_timeout s).2 = 1 := by
  obtain ⟨h1, h2, h3, h4, h5⟩ := helper_abort_frame_fields s SDO_ABORT_TIMEOUT
    (by decide) hidx hsub
  refine ⟨_, ?_, h1, h2, h3, h4, h5, ?_, ?_, ?_, ?_⟩
  · exact helper_abort_sent s SDO_ABORT_TIMEOUT
  · simp only [sdo_async__on_timeout]
    rw [helper_abort_state]
  · simp only [sdo_async__on_timeout]
    rw [helper_abort_state]
  · simp only [sdo_async__on_timeout]
    rw [helper_abort_state]
  · exact helper_countDone_abort s SDO_ABORT_TIMEOUT

theorem sdo_async_timeout_behaviour_witness :
    runningW.is_running = true
    ∧ (sdo_async__on_timeout runningW).1.status = sdo_req_status.req_local_abort
    ∧ (sdo_async__on_timeout runningW).1.abort_code = SDO_ABORT_TIMEOUT
    ∧ countDone (sdo_async__on_timeout runningW).2 = 1 := by
  obtain ⟨cf, h⟩ := sdo_async_timeout_behaviour runningW (by decide)
    (by decide) (by decide)
  exact ⟨by decide, h.2.2.2.2.2.2.1, h.2.2.2.2.2.2.2.1, h.2.2.2.2.2.2.2.2.2⟩

theorem helper_take_append {α : Type} (l1 l2 : List α) :
    (l1 ++ l2).take l1.length = l1 := by
  induction l1 with
  | nil => rfl
  | cons a t ih => simp [ih]

theorem helper_drop_append {α : Type} (l1 l2 : List α) :
    (l1 ++ l2).drop l1.length = l2 := by
  induction l1 with
  | nil => rfl
  | cons a t ih => simp [ih]

theorem helper_send_init_dl_expedited (s : sdo_async)
    (hexp : s.buffer.length ≤ 4) (hq : s.quirk_needs_full_frame = false) :
    sentFrames (sdo_async__send_init_dl s).2 =
      [{ can_id := R_RSDO + s.nodeid,
         can_dlc := 4 + s.buffer.length,
         data := [35 ||| (((4 - s.buffer.length) &&& 3) <<< 2),
                  s.index % 256, s.index / 256 % 256, s.subindex % 256]
           ++ s.buffer
           ++ List.drop (4 + s.buffer.length)
                [35 ||| (((4 - s.buffer.length) &&& 3) <<< 2),
                 s.index % 256, s.index / 256 % 256, s.subindex % 256,
                 0, 0, 0, 0] }] := by
  have hB : sdo_async__is_expediated s = true := by
    simp [sdo_async__is_expediated, SDO_EXPEDIATED_DATA_SIZE, hexp]
  have hq2 : ¬ (s.quirk_needs_full_frame = true) := by simp [hq]
  simp only [sdo_async__send_init_dl, sdo_async__send_frame]
  rw [if_pos hB, if_neg hq2]
  simp [sentFrames, memcpy_at, sdo_set_expediated_size, sdo_expediate,
    sdo_indicate_size, sdo_set_subindex, sdo_set_index, sdo_set_cs,
    sdo_async__init_frame, sdo_clear_frame, get_byte, set_byte, List.set,
    SDO_CCS_DL_INIT_REQ, SDO_EXPEDIATED_DATA_IDX, R_RSDO]

theorem helper_send_init_dl_segmented (s : sdo_async)
    (hexp : ¬ s.buffer.length ≤ 4) (hq : s.quirk_needs_full_frame = false) :
    sentFrames (sdo_async__send_init_dl s).2 =
      [{ can_id := R_RSDO + s.nodeid,
         can_dlc := 8,
         data := [33, s.index % 256, s.index / 256 % 256, s.subindex % 256,
                  s.buffer.length % 256, s.buffer.length / 256 % 256,
                  s.buffer.length / 65536 % 256,
                  s.buffer.length / 16777216 % 256] }] := by
  have hB : ¬ (sdo_async__is_expediated s = true) := by
    simp [sdo_async__is_expediated, SDO_EXPEDIATED_DATA_SIZE, hexp]
  have hq2 : ¬ (s.quirk_needs_full_frame = true) := by simp [hq]
  simp only [sdo_async__send_init_dl, sdo_async__send_frame]
  rw [if_neg hB, if_neg hq2]
  simp [sentFrames, sdo_set_indicated_size, sdo_indicate_size,
    sdo_set_subindex, sdo_set_index, sdo_set_cs, sdo_async__init_frame,
    sdo_clear_frame, get_byte, set_byte, List.set, SDO_CCS_DL_INIT_REQ,
    CAN_MAX_DLC, R_RSDO]

/-- C4: a Download is expedited exactly when the payload length is at
most 4; the expedited init frame has DLC `4 + n` and carries the payload
at data offset 4 (so 0 bytes give DLC 4 and 4 bytes give DLC 8); the
segmented init frame (n ≥ 5) has DLC 8 and carries the 32-bit total size
at offset 4. -/
theorem sdo_async_download_init_frame (s : sdo_async)
    (hq : s.quirk_needs_full_frame = false)
    (h32 : s.buffer.length < 4294967296) :
    (sdo_async__is_expediated s = true ↔ s.buffer.length ≤ 4)
    ∧ (sentFrames (sdo_async__send_init_dl s).2).length = 1
    ∧ ∀ cf ∈ sentFrames (sdo_async__send_init_dl s).2,
        (sdo_is_expediated cf = true ↔ s.buffer.length ≤ 4)
        ∧ (s.buffer.length ≤ 4 →
            cf.can_dlc = 4 + s.buffer.length
            ∧ (cf.data.drop 4).take s.buffer.length = s.buffer)
        ∧ (5 ≤ s.buffer.length →
            cf.can_dlc = 8 ∧ sdo_get_indicated_size cf = s.buffer.length) := by
  refine ⟨by simp [sdo_async__is_expediated, SDO_EXPEDIATED_DATA_SIZE], ?_, ?_⟩
  · by_cases hexp : s.buffer.length ≤ 4
    · rw [helper_send_init_dl_expedited s hexp hq]
      rfl
    · rw [helper_send_init_dl_segmented s hexp hq]
      rfl
  · intro cf hcf
    by_cases hexp : s.buffer.length ≤ 4
    · rw [helper_send_init_dl_expedited s hexp hq] at hcf
      simp only [List.mem_singleton] at hcf
      subst hcf
      refine ⟨⟨fun _ => hexp, fun _ => ?_⟩, fun _ => ⟨rfl, ?_⟩,
        fun h5 => absurd hexp (by omega)⟩
      · simp only [sdo_is_expediated, get_byte, List.cons_append,
          List.getD_cons_zero]
        set n := s.buffer.length with hn
        interval_cases n <;> decide
      · show (List.drop 4 _).take s.buffer.length = s.buffer
        simp only [List.cons_append, List.nil_append, List.drop_succ_cons,
          List.drop_zero]
        exact helper_take_append s.buffer _
    · rw [helper_send_init_dl_segmented s hexp hq] at hcf
      simp only [List.mem_singleton] at hcf
      subst hcf
      refine ⟨⟨fun hb => ?_, fun h4 => absurd h4 hexp⟩,
        fun h4 => absurd h4 hexp, fun _ => ⟨rfl, ?_⟩⟩
      · simp [sdo_is_expediated, get_byte] at hb
      · simp only [sdo_get_indicated_size, get_byte, List.getD_cons_succ,
          List.getD_cons_zero]
        omega

theorem sdo_async_download_init_frame_witness :
    (sdo_async__is_expediated runningW = true ↔ runningW.buffer.length ≤ 4)
    ∧ (sentFrames (sdo_async__send_init_dl runningW).2).length = 1 := by
  have h := sdo_async_download_init_frame runningW (by decide) (by decide)
  exact ⟨h.1, h.2.1⟩

/-- Concrete upload request for counterexamples and witnesses. -/
def infoUlW : sdo_async_info :=
  { type := sdo_req_type.upload, index := 0x1018, subindex := 0,
    timeout := 1, on_done_cb := true, context := 0, free_fn := false,
    data := [] }

/-- Node 5 just after starting the upload described by `infoUlW`. -/
def runningUlW : sdo_async := (sdo_async_start (sdo_async_init 5) infoUlW).1

/-- An abort frame with DLC 0: its data bytes are present in the CAN
frame structure but the sender declared none of them valid. -/
def abortFrame0W : can_frame :=
  { can_id := 0x585, can_dlc := 0,
    data := [0x80, 0, 0, 0, 0x11, 0x22, 0x33, 0x44] }

/-- C3 counterexample: `feed` does not check DLC ≥ 1 before reading the
command specifier.  A frame with DLC 0 whose (undeclared) command byte
spells ABORT is dispatched as a remote abort — its command specifier and
even its abort-code bytes are read — instead of being rejected. -/
theorem sdo_async_feed_no_dlc_precheck_counterexample :
    abortFrame0W.can_dlc = 0
    ∧ (sdo_async_feed runningUlW abortFrame0W).map
        (fun r => (r.1.status, r.1.abort_code))
      = some (sdo_req_status.req_remote_abort, 0x44332211) := by
  decide

/-- C3 (amended): on a running instance, `feed` requires the frame's CAN
id to equal 0x580 + node id (an assertion; the model yields no defined
result otherwise) before anything else, but it reads the command
specifier with no DLC check whatsoever: a frame whose command specifier
is ABORT completes the transaction as a remote abort at any DLC, even 0.
The DLC lower bounds are enforced only inside the phase handlers, after
dispatching on the abort specifier and the communication phase: an init
response needs DLC ≥ 4 and a segment response DLC ≥ 1, shorter frames
causing a local abort with code GENERAL. -/
theorem sdo_async_feed_header_checks (s : sdo_async) (cf : can_frame)
    (hrun : s.is_running = true) :
    (cf.can_id ≠ R_TSDO + s.nodeid → sdo_async_feed s cf = none)
    ∧ (cf.can_id = R_TSDO + s.nodeid → sdo_get_cs cf = SDO_CS_ABORT →
        (sdo_async_feed s cf).map (fun r => (r.1.status, r.1.abort_code))
          = some (sdo_req_status.req_remote_abort, sdo_get_abort_code cf))
    ∧ (cf.can_id = R_TSDO + s.nodeid → sdo_get_cs cf ≠ SDO_CS_ABORT →
        s.comm_state = sdo_async_comm_state.comm_init_response →
        cf.can_dlc < 4 →
        (sdo_async_feed s cf).map (fun r => (r.1.status, r.1.abort_code))
          = some (sdo_req_status.req_local_abort, SDO_ABORT_GENERAL))
    ∧ (cf.can_id = R_TSDO + s.nodeid → sdo_get_cs cf ≠ SDO_CS_ABORT →
        s.comm_state = sdo_async_comm_state.comm_seg_response →
        cf.can_dlc < 1 →
        (sdo_async_feed s cf).map (fun r => (r.1.status, r.1.abort_code))
          = some (sdo_req_status.req_local_abort, SDO_ABORT_GENERAL)) := by
  refine ⟨?_, ?_, ?_, ?_⟩
  · intro h
    simp [sdo_async_feed, h]
  · intro hid hcs
    simp only [sdo_async_feed]
    rw [if_neg (fun h => h hid), if_neg (by simp [hrun]), if_pos hcs]
    rw [helper_on_done_eq]
    rfl
  · intro hid hcs hcomm hdlc
    simp only [sdo_async_feed]
    rw [if_neg (fun h => h hid), if_neg (by simp [hrun]), if_neg hcs]
    simp only [hcomm]
    cases ht : s.type <;>
      simp only [sdo_async__feed_init_response, ht,
        sdo_async__feed_init_dl_response, sdo_async__feed_init_ul_response] <;>
      rw [if_pos hdlc] <;>
      rw [helper_abort_state] <;>
      rfl
  · intro hid hcs hcomm hdlc
    simp only [sdo_async_feed]
    rw [if_neg (fun h => h hid), if_neg (by simp [hrun]), if_neg hcs]
    simp only [hcomm]
    cases ht : s.type <;>
      simp only [sdo_async__feed_seg_response, ht,
        sdo_async__feed_dl_seg_response, sdo_async__feed_ul_seg_response] <;>
      rw [if_pos hdlc] <;>
      rw [helper_abort_state] <;>
      rfl

theorem sdo_async_feed_header_checks_witness :
    (sdo_async_feed runningUlW abortFrame0W).map
        (fun r => (r.1.status, r.1.abort_code))
      = some (sdo_req_status.req_remote_abort,
          sdo_get_abort_code abortFrame0W) :=
  (sdo_async_feed_header_checks runningUlW abortFrame0W (by decide)).2.1
    (by decide) (by decide)

theorem helper_send_frame_data (s : sdo_async) (cf : can_frame) :
    (sdo_async__send_frame s cf).data = cf.data := by
  simp only [sdo_async__send_frame]
  split_ifs <;> rfl

theorem helper_send_frame_id (s : sdo_async) (cf : can_frame) :
    (sdo_async__send_frame s cf).can_id = cf.can_id := by
  simp only [sdo_async__send_frame]
  split_ifs <;> rfl

theorem helper_send_frame_dlc (s : sdo_async) (cf : can_frame)
    (hq : s.quirk_needs_full_frame = false) :
    (sdo_async__send_frame s cf).can_dlc = cf.can_dlc := by
  simp [sdo_async__send_frame, hq]

theorem helper_request_dl_sent (s : sdo_async) :
    ∃ f, (sdo_async__request_dl_segment s).2
        = [sdo_event.timer_start, sdo_event.sent f] := by
  simp only [sdo_async__request_dl_segment]
  exact ⟨_, rfl⟩

theorem helper_take_append_of_length {α : Type} (l1 l2 : List α) (n : Nat)
    (h : l1.length = n) : (l1 ++ l2).take n = l1 := by
  subst h
  exact helper_take_append l1 l2

theorem helper_is_toggled_send (s : sdo_async) (cf : can_frame) :
    sdo_is_toggled (sdo_async__send_frame s cf) = sdo_is_toggled cf := by
  simp [sdo_is_toggled, get_byte, helper_send_frame_data]

theorem helper_is_end_send (s : sdo_async) (cf : can_frame) :
    sdo_is_end_segment (sdo_async__send_frame s cf) = sdo_is_end_segment cf := by
  simp [sdo_is_end_segment, get_byte, helper_send_frame_data]

theorem helper_request_dl_frame_props (s : sdo_async)
    (hpos : s.pos < s.buffer.length) :
    (sentFrames (sdo_async__request_dl_segment s).2).length = 1
    ∧ ∀ f ∈ sentFrames (sdo_async__request_dl_segment s).2,
        sdo_is_toggled f = s.is_toggled
        ∧ sdo_is_end_segment f
            = decide (s.buffer.length ≤ s.pos + min 7 (s.buffer.length - s.pos))
        ∧ (s.quirk_needs_full_frame = false →
            f.can_dlc = 1 + min 7 (s.buffer.length - s.pos))
        ∧ (f.data.drop 1).take (min 7 (s.buffer.length - s.pos))
            = (s.buffer.drop s.pos).take (min 7 (s.buffer.length - s.pos)) := by
  have hk1 : 1 ≤ min 7 (s.buffer.length - s.pos) := by omega
  have hk7 : min 7 (s.buffer.length - s.pos) ≤ 7 := by omega
  have hplen : ((s.buffer.drop s.pos).take
      (min 7 (s.buffer.length - s.pos))).length
      = min 7 (s.buffer.length - s.pos) := by
    rw [List.length_take, List.length_drop]
    omega
  constructor
  · simp [sdo_async__request_dl_segment, sentFrames]
  · intro f hf
    simp only [sdo_async__request_dl_segment, sentFrames, List.filterMap_cons,
      List.filterMap_nil, List.mem_singleton, SDO_SEGMENT_MAX_SIZE,
      SDO_SEGMENT_IDX] at hf
    subst hf
    refine ⟨?_, ?_, ?_, ?_⟩
    · rw [helper_is_toggled_send]
      by_cases hend : s.buffer.length ≤ s.pos + min 7 (s.buffer.length - s.pos)
      · rw [if_pos (by simp only [sdo_async__is_at_end,
          decide_eq_true_eq]; exact hend)]
        cases htog : s.is_toggled <;>
          simp only [sdo_end_segment, sdo_toggle, sdo_set_segment_size,
            sdo_set_cs, sdo_async__init_frame, sdo_clear_frame,
            sdo_is_toggled, get_byte, set_byte, memcpy_at, List.set,
            SDO_CCS_DL_SEG_REQ, Bool.false_eq_true, if_false, if_true,
            List.replicate, List.take, List.drop, List.cons_append,
            List.nil_append, List.getD_cons_zero] <;>
        · set k := min 7 (s.buffer.length - s.pos) with hk
          interval_cases k <;> decide
      · rw [if_neg (by simp only [sdo_async__is_at_end,
          decide_eq_true_eq]; exact hend)]
        cases htog : s.is_toggled <;>
          simp only [sdo_toggle, sdo_set_segment_size,
            sdo_set_cs, sdo_async__init_frame, sdo_clear_frame,
            sdo_is_toggled, get_byte, set_byte, memcpy_at, List.set,
            SDO_CCS_DL_SEG_REQ, Bool.false_eq_true, if_false, if_true,
            List.replicate, List.take, List.drop, List.cons_append,
            List.nil_append, List.getD_cons_zero] <;>
        · set k := min 7 (s.buffer.length - s.pos) with hk
          interval_cases k <;> decide
    · rw [helper_is_end_send]
      by_cases hend : s.buffer.length ≤ s.pos + min 7 (s.buffer.length - s.pos)
      · rw [if_pos (by simp only [sdo_async__is_at_end,
          decide_eq_true_eq]; exact hend), decide_eq_true hend]
        cases htog : s.is_toggled <;>
          simp only [sdo_end_segment, sdo_toggle, sdo_set_segment_size,
            sdo_set_cs, sdo_async__init_frame, sdo_clear_frame,
            sdo_is_end_segment, get_byte, set_byte, memcpy_at, List.set,
            SDO_CCS_DL_SEG_REQ, Bool.false_eq_true, if_false, if_true,
            List.replicate, List.take, List.drop, List.cons_append,
            List.nil_append, List.getD_cons_zero] <;>
        · set k := min 7 (s.buffer.length - s.pos) with hk
          interval_cases k <;> decide
      · rw [if_neg (by simp only [sdo_async__is_at_end,
          decide_eq_true_eq]; exact hend)]
        rw [decide_eq_false hend]
        cases htog : s.is_toggled <;>
          simp only [sdo_toggle, sdo_set_segment_size,
            sdo_set_cs, sdo_async__init_frame, sdo_clear_frame,
            sdo_is_end_segment, get_byte, set_byte, memcpy_at, List.set,
            SDO_CCS_DL_SEG_REQ, Bool.false_eq_true, if_false, if_true,
            List.replicate, List.take, List.drop, List.cons_append,
            List.nil_append, List.getD_cons_zero] <;>
        · set k := min 7 (s.buffer.length - s.pos) with hk
          interval_cases k <;> decide
    · intro hq
      rw [helper_send_frame_dlc _ _ hq]
      by_cases hend : s.buffer.length ≤ s.pos + min 7 (s.buffer.length - s.pos)
      · rw [if_pos (by simp only [sdo_async__is_at_end,
          decide_eq_true_eq]; exact hend)]
        rfl
      · rw [if_neg (by simp only [sdo_async__is_at_end,
          decide_eq_true_eq]; exact hend)]
    · rw [helper_send_frame_data]
      by_cases hend : s.buffer.length ≤ s.pos + min 7 (s.buffer.length - s.pos)
      · rw [if_pos (by simp only [sdo_async__is_at_end,
          decide_eq_true_eq]; exact hend)]
        simp only [sdo_end_segment, sdo_set_segment_size, sdo_toggle,
          sdo_set_cs, sdo_async__init_frame, sdo_clear_frame, set_byte,
          get_byte, memcpy_at, List.set, List.replicate, List.take,
          List.cons_append, List.nil_append, List.drop_succ_cons,
          List.drop_zero, SDO_CCS_DL_SEG_REQ]
        split_ifs <;>
          exact helper_take_append_of_length _ _ _ hplen
      · rw [if_neg (by simp only [sdo_async__is_at_end,
          decide_eq_true_eq]; exact hend)]
        simp only [sdo_set_segment_size, sdo_toggle,
          sdo_set_cs, sdo_async__init_frame, sdo_clear_frame, set_byte,
          get_byte, memcpy_at, List.set, List.replicate, List.take,
          List.cons_append, List.nil_append, List.drop_succ_cons,
          List.drop_zero, SDO_CCS_DL_SEG_REQ]
        split_ifs <;>
          exact helper_take_append_of_length _ _ _ hplen

theorem helper_on_done_no_sent (s : sdo_async) :
    sentFrames (sdo_async__on_done s).2 = [] := by
  rw [helper_on_done_eq]
  simp only [sentFrames, List.filterMap_cons, List.filterMap_append]
  split_ifs <;> simp [sentFrames]

theorem helper_request_ul_frame_props (s : sdo_async) :
    ∀ f ∈ sentFrames (sdo_async__request_ul_segment s).2,
      sdo_is_toggled f = s.is_toggled := by
  intro f hf
  simp only [sdo_async__request_ul_segment, sentFrames, List.filterMap_cons,
    List.filterMap_nil, List.mem_singleton] at hf
  subst hf
  rw [helper_is_toggled_send]
  cases htog : s.is_toggled <;>
    simp [sdo_toggle, sdo_set_cs, sdo_async__init_frame, sdo_clear_frame,
      sdo_is_toggled, get_byte, set_byte, List.set, SDO_CCS_UL_SEG_REQ] <;>
    decide

/-- C6: for a well-formed segment response (DLC ≥ 1, matching command
specifier) fed while awaiting a segment, the transaction aborts locally
with code TOGGLE exactly when the response's toggle bit differs from the
client's `is_toggled` and the response is non-terminal (Download: cursor
not yet at the end of the buffer; Upload: "c" bit clear) — the check is
waived on terminal segments; whenever the check passes or is waived the
client flips `is_toggled`, and any next segment request it emits carries
the flipped toggle. -/
theorem sdo_async_segment_toggle_check (s : sdo_async) (cf : can_frame)
    (hdlc : 1 ≤ cf.can_dlc) :
    (sdo_get_cs cf = SDO_SCS_DL_SEG_RES →
      (((sdo_async__feed_dl_seg_response s cf).1.status
            = sdo_req_status.req_local_abort
          ∧ (sdo_async__feed_dl_seg_response s cf).1.abort_code
            = SDO_ABORT_TOGGLE
          ∧ countDone (sdo_async__feed_dl_seg_response s cf).2.1 = 1)
        ↔ (sdo_async__is_at_end s = false ∧ sdo_is_toggled cf ≠ s.is_toggled))
      ∧ (¬(sdo_async__is_at_end s = false ∧ sdo_is_toggled cf ≠ s.is_toggled) →
          (sdo_async__feed_dl_seg_response s cf).1.is_toggled
            = (! s.is_toggled)
          ∧ ∀ f ∈ sentFrames (sdo_async__feed_dl_seg_response s cf).2.1,
              sdo_is_toggled f = (! s.is_toggled)))
    ∧ (sdo_get_cs cf = SDO_SCS_UL_SEG_RES →
      (((sdo_async__feed_ul_seg_response s cf).1.status
            = sdo_req_status.req_local_abort
          ∧ (sdo_async__feed_ul_seg_response s cf).1.abort_code
            = SDO_ABORT_TOGGLE
          ∧ countDone (sdo_async__feed_ul_seg_response s cf).2.1 = 1)
        ↔ (sdo_is_end_segment cf = false ∧ sdo_is_toggled cf ≠ s.is_toggled))
      ∧ (¬(sdo_is_end_segment cf = false ∧ sdo_is_toggled cf ≠ s.is_toggled) →
          (sdo_async__feed_ul_seg_response s cf).1.is_toggled
            = (! s.is_toggled)
          ∧ ∀ f ∈ sentFrames (sdo_async__feed_ul_seg_response s cf).2.1,
              sdo_is_toggled f = (! s.is_toggled))) := by
  have hd : ¬(cf.can_dlc < 1) := by omega
  constructor
  · intro hcs
    have hcs' : ¬(sdo_get_cs cf ≠ SDO_SCS_DL_SEG_RES) := fun h => h hcs
    by_cases hmis : sdo_async__is_at_end s = false ∧ sdo_is_toggled cf ≠ s.is_toggled
    · refine ⟨⟨fun _ => hmis, fun _ => ?_⟩, fun hc => absurd hmis hc⟩
      simp only [sdo_async__feed_dl_seg_response]
      rw [if_neg hd, if_neg hcs', if_pos hmis]
      refine ⟨?_, ?_, helper_countDone_abort _ _⟩ <;> rw [helper_abort_state]
    · constructor
      · refine ⟨fun hL => ?_, fun hR => absurd hR hmis⟩
        exfalso
        simp only [sdo_async__feed_dl_seg_response] at hL
        rw [if_neg hd, if_neg hcs', if_neg hmis] at hL
        by_cases hend2 : sdo_async__is_at_end
            { s with is_toggled := ! s.is_toggled } = true
        · rw [if_pos hend2] at hL
          obtain ⟨h1, _, _⟩ := hL
          rw [helper_on_done_eq] at h1
          simp at h1
        · rw [if_neg hend2] at hL
          obtain ⟨_, _, h3⟩ := hL
          rw [helper_countDone_request_dl] at h3
          exact absurd h3 (by decide)
      · intro _
        simp only [sdo_async__feed_dl_seg_response]
        rw [if_neg hd, if_neg hcs', if_neg hmis]
        by_cases hend2 : sdo_async__is_at_end
            { s with is_toggled := ! s.is_toggled } = true
        · rw [if_pos hend2]
          refine ⟨?_, ?_⟩
          · rw [helper_on_done_eq]
          · intro f hf
            rw [helper_on_done_no_sent] at hf
            cases hf
        · rw [if_neg hend2]
          have hend3 : ¬ (s.buffer.length ≤ s.pos) := by
            intro h
            exact hend2 (by
              simp only [sdo_async__is_at_end, decide_eq_true_eq]
              exact h)
          have hpos : s.pos < s.buffer.length := by omega
          refine ⟨?_, ?_⟩
          · rw [helper_request_dl_state]
          · intro f hf
            exact ((helper_request_dl_frame_props
              { s with is_toggled := ! s.is_toggled } hpos).2 f hf).1
  · intro hcs
    have hcs' : ¬(sdo_get_cs cf ≠ SDO_SCS_UL_SEG_RES) := fun h => h hcs
    by_cases hmis : sdo_is_end_segment cf = false ∧ sdo_is_toggled cf ≠ s.is_toggled
    · refine ⟨⟨fun _ => hmis, fun _ => ?_⟩, fun hc => absurd hmis hc⟩
      simp only [sdo_async__feed_ul_seg_response]
      rw [if_neg hd, if_neg hcs', if_pos hmis]
      refine ⟨?_, ?_, helper_countDone_abort _ _⟩ <;> rw [helper_abort_state]
    · constructor
      · refine ⟨fun hL => ?_, fun hR => absurd hR hmis⟩
        exfalso
        simp only [sdo_async__feed_ul_seg_response] at hL
        rw [if_neg hd, if_neg hcs', if_neg hmis] at hL
        by_cases hendf : sdo_is_end_segment cf = true
        · rw [if_pos hendf] at hL
          obtain ⟨h1, _, _⟩ := hL
          rw [helper_on_done_eq] at h1
          simp at h1
        · rw [if_neg hendf] at hL
          obtain ⟨_, _, h3⟩ := hL
          rw [helper_countDone_request_ul] at h3
          exact absurd h3 (by decide)
      · intro _
        simp only [sdo_async__feed_ul_seg_response]
        rw [if_neg hd, if_neg hcs', if_neg hmis]
        by_cases hendf : sdo_is_end_segment cf = true
        · rw [if_pos hendf]
          refine ⟨?_, ?_⟩
          · rw [helper_on_done_eq]
          · intro f hf
            rw [helper_on_done_no_sent] at hf
            cases hf
        · rw [if_neg hendf]
          refine ⟨?_, ?_⟩
          · rw [helper_request_ul_state]
          · intro f hf
            exact helper_request_ul_frame_props _ f hf

/-- Concrete running download in the segment phase with a 5-byte buffer. -/
def segDlW : sdo_async :=
  { sdo_async_init 5 with
      is_running := true
      comm_state := sdo_async_comm_state.comm_seg_response
      type := sdo_req_type.download
      index := 0x2000
      subindex := 1
      buffer := [1, 2, 3, 4, 5]
      timer_armed := true }

/-- A download segment response with an unexpected toggle bit set. -/
def dlSegResTogW : can_frame :=
  { can_id := 0x585, can_dlc := 1, data := [0x30, 0, 0, 0, 0, 0, 0, 0] }

theorem sdo_async_segment_toggle_check_witness :
    (sdo_async__feed_dl_seg_response segDlW dlSegResTogW).1.status
      = sdo_req_status.req_local_abort
    ∧ (sdo_async__feed_dl_seg_response segDlW dlSegResTogW).1.abort_code
      = SDO_ABORT_TOGGLE := by
  have h := (sdo_async_segment_toggle_check segDlW dlSegResTogW
    (by decide)).1 (by decide)
  have h2 := (h.1).mpr (by decide)
  exact ⟨h2.1, h2.2.1⟩

theorem helper_start_no_released (t : sdo_async) (info : sdo_async_info)
    (c : Nat) : sdo_event.released c ∉ (sdo_async_start t info).2.1 := by
  by_cases hr : t.is_running = true
  · simp [sdo_async_start, hr]
  · have hr' : t.is_running = false := by
      cases hb : t.is_running with
      | false => rfl
      | true => exact absurd hb hr
    simp only [sdo_async_start, hr', Bool.false_eq_true, if_false]
    cases ht : info.type <;>
      simp [sdo_async__send_init, ht, sdo_async__send_init_dl,
        sdo_async__send_init_ul]

/-- C9: `on_done` stops the timer, captures the context and release
function, clears `is_running`, invokes the stored user callback, and only
then releases the captured context.  Modelling the stored callback as one
that re-enters `sdo_async_start` on the same instance: the events are, in
order, the timer stop, the completion-path entry, the re-entrant start's
own events, and last a single release of the old context; the re-entrant
start succeeds (because `is_running` was cleared before the callback ran)
and its freshly assigned context is left in place, untouched by the
release of the old one. -/
theorem sdo_async_on_done_reentrant_start (s : sdo_async)
    (info : sdo_async_info) (hrun : s.is_running = true)
    (hcb : s.on_done_cb = true) (hctx : s.context ≠ 0)
    (hfree : s.free_fn = true) :
    sdo_async__on_done_gen
        (fun t => ((sdo_async_start t info).1, (sdo_async_start t info).2.1)) s
      = ((sdo_async_start
            { s with is_running := false, timer_armed := false } info).1,
         sdo_event.timer_stop :: sdo_event.on_done_entered ::
           ((sdo_async_start
              { s with is_running := false, timer_armed := false } info).2.1
             ++ [sdo_event.released s.context]))
    ∧ (sdo_async_start
        { s with is_running := false, timer_armed := false } info).2.2 = 0
    ∧ (sdo_async_start
        { s with is_running := false, timer_armed := false } info).1.context
        = info.context
    ∧ (sdo_async_start
        { s with is_running := false, timer_armed := false } info).1.is_running
        = true
    ∧ sdo_event.released s.context
        ∉ (sdo_async_start
            { s with is_running := false, timer_armed := false } info).2.1 := by
  refine ⟨?_, ?_, ?_, ?_, helper_start_no_released _ info s.context⟩
  · simp only [sdo_async__on_done_gen]
    rw [if_pos hcb, if_pos (And.intro hctx hfree)]
    rfl
  · simp [sdo_async_start]
  · simp [sdo_async_start, helper_send_init_state]
  · exact (helper_start_char
      { s with is_running := false, timer_armed := false } info rfl).1

theorem sdo_async_on_done_reentrant_start_witness :
    (sdo_async_start
        { runningW with is_running := false, timer_armed := false }
        infoUlW).2.2 = 0
    ∧ (sdo_async_start
        { runningW with is_running := false, timer_armed := false }
        infoUlW).1.context = infoUlW.context
    ∧ sdo_event.released runningW.context
        ∉ (sdo_async_start
            { runningW with is_running := false, timer_armed := false }
            infoUlW).2.1 := by
  have h := sdo_async_on_done_reentrant_start runningW infoUlW
    (by decide) (by decide) (by decide) (by decide)
  exact ⟨h.2.1, h.2.2.1, h.2.2.2.2⟩

theorem helper_dl_segments_sum (fuel : Nat) (s : sdo_async)
    (hq : s.quirk_needs_full_frame = false)
    (hfuel : s.buffer.length - s.pos ≤ fuel) :
    ((dl_segment_frames fuel s).1.map (fun f => f.can_dlc - 1)).sum
      = s.buffer.length - s.pos := by
  induction fuel generalizing s with
  | zero =>
    simp only [dl_segment_frames, List.map_nil, List.sum_nil]
    omega
  | succ n ih =>
    by_cases hpos : s.pos < s.buffer.length
    · simp only [dl_segment_frames]
      rw [if_pos hpos]
      obtain ⟨hlen1, hprops⟩ := helper_request_dl_frame_props s hpos
      obtain ⟨f, hfeq⟩ := List.length_eq_one.mp hlen1
      have hdlc := (hprops f
        (by rw [hfeq]; exact List.mem_singleton_self f)).2.2.1 hq
      have hstate := helper_request_dl_state s
      simp only [SDO_SEGMENT_MAX_SIZE] at hstate
      rw [hstate, hfeq]
      dsimp only
      have hr := ih { s with
          pos := s.pos + 7 ⊓ (s.buffer.length - s.pos),
          is_toggled := ! s.is_toggled,
          timer_armed := true } hq (by dsimp only; omega)
      dsimp only at hr
      simp only [List.map_append, List.map_cons, List.map_nil,
        List.sum_append, List.sum_cons, List.sum_nil]
      rw [hdlc, hr]
      omega
    · simp only [dl_segment_frames]
      rw [if_neg hpos]
      simp only [List.map_nil, List.sum_nil]
      omega

/-- C5: each download segment request carries `min(7, remaining)` payload
bytes taken at the cursor, with DLC `1 + size`, the client's current
toggle bit, and the end-of-transfer bit exactly when this segment makes
the cursor reach the end of the buffer; iterating the segment phase
(`dl_segment_frames`) over a buffer of length n starting at cursor 0
emits segments whose payload byte counts sum to n. -/
theorem sdo_async_download_segment_frames (s : sdo_async)
    (hq : s.quirk_needs_full_frame = false) :
    (s.pos < s.buffer.length →
      (sentFrames (sdo_async__request_dl_segment s).2).length = 1
      ∧ (sdo_async__request_dl_segment s).1.pos
          = s.pos + min 7 (s.buffer.length - s.pos)
      ∧ ∀ f ∈ sentFrames (sdo_async__request_dl_segment s).2,
          f.can_dlc = 1 + min 7 (s.buffer.length - s.pos)
          ∧ sdo_is_toggled f = s.is_toggled
          ∧ sdo_is_end_segment f
              = decide (s.buffer.length
                  ≤ s.pos + min 7 (s.buffer.length - s.pos))
          ∧ (f.data.drop 1).take (min 7 (s.buffer.length - s.pos))
              = (s.buffer.drop s.pos).take (min 7 (s.buffer.length - s.pos)))
    ∧ (∀ fuel, s.pos = 0 → 5 ≤ s.buffer.length → s.buffer.length ≤ fuel →
        ((dl_segment_frames fuel s).1.map (fun f => f.can_dlc - 1)).sum
          = s.buffer.length) := by
  constructor
  · intro hpos
    obtain ⟨hlen1, hprops⟩ := helper_request_dl_frame_props s hpos
    refine ⟨hlen1, ?_, fun f hf => ?_⟩
    · rw [helper_request_dl_state]
      rfl
    · obtain ⟨h1, h2, h3, h4⟩ := hprops f hf
      exact ⟨h3 hq, h1, h2, h4⟩
  · intro fuel hpos hlen hfuel
    have h := helper_dl_segments_sum fuel s hq (by omega)
    rw [h, hpos]
    omega

theorem sdo_async_download_segment_frames_witness :
    (sentFrames (sdo_async__request_dl_segment segDlW).2).length = 1
    ∧ ((dl_segment_frames 5 segDlW).1.map (fun f => f.can_dlc - 1)).sum
        = segDlW.buffer.length := by
  have h := sdo_async_download_segment_frames segDlW (by decide)
  exact ⟨(h.1 (by decide)).1, h.2 5 (by decide) (by decide) (by decide)⟩
